import Mathlib

/-!
Verification of the Platoo voucher service (Express/Supabase, `src/server.js` and
`src/middleware/auth.js`) against its natural-language specification.

The handlers are shallowly embedded as pure Lean functions.  Database rows reaching a
handler (the voucher looked up by code or id, the redemption rows for a (voucher, user)
pair) are inputs; outcomes of the storage writes that the handler checks for errors are
injected as boolean flags; every write the handler issues is recorded in an explicit
operation trace so that the shape of each write (in particular, whether an update
carries the optimistic-locking filter on `total_redeemed`) is visible to theorems.

Machine numbers: all amounts and counters are non-negative integers in the service
(zod validates `int().positive()` / `int().min(0)`), modelled as `Nat`; `final_amount`
is computed as an integer subtraction, modelled in `Int`.  Timestamps are modelled as
`Int` with `<` for the `Date` comparisons.
-/

namespace VoucherService

/-- `discount_type` column: "PERCENT" | "FIXED". -/
inductive DiscountType where
  | PERCENT
  | FIXED
deriving DecidableEq, Repr

/-- `status` column of `voucher_redemptions`: "SUCCESS" | "CANCELLED" | "REFUNDED". -/
inductive RedemptionStatus where
  | SUCCESS
  | CANCELLED
  | REFUNDED
deriving DecidableEq, Repr

/-- A row of the `vouchers` table, with the columns the handlers read or write.
`max_discount_amount` is nullable; `start_at`/`end_at` are nullable timestamps. -/
structure Voucher where
  id : Nat
  code : String
  name : String
  discount_type : DiscountType
  discount_value : Nat
  currency : String
  min_order_amount : Nat
  max_discount_amount : Option Nat
  max_total_redemptions : Nat
  total_redeemed : Nat
  is_active : Bool
  start_at : Option Int
  end_at : Option Int
deriving DecidableEq, Repr

/-- A row of the `voucher_redemptions` table. -/
structure Redemption where
  voucher_id : Nat
  user_id : Nat
  order_id : Option String
  order_amount : Nat
  discount_amount : Nat
  final_amount : Int
  status : RedemptionStatus
  redeemed_at : Int
deriving DecidableEq, Repr

/-- The discount computation of the redeem handler (`server.js` lines 422-441).
For PERCENT: `Math.floor(order_amount * discount_value / 100)`, then
`if (voucher.max_discount_amount && discount_amount > voucher.max_discount_amount)`
clamps to the cap — note the JavaScript truthiness test: a cap of `null` or `0` skips
the clamp.  For FIXED: the value, clamped to `order_amount`. -/
def computeDiscount (v : Voucher) (order_amount : Nat) : Nat :=
  match v.discount_type with
  | .PERCENT =>
      let d := order_amount * v.discount_value / 100
      match v.max_discount_amount with
      | some m => if m ≠ 0 ∧ m < d then m else d
      | none => d
  | .FIXED =>
      if order_amount < v.discount_value then order_amount else v.discount_value

/-- `final_amount = order_amount - discount_amount` (`server.js` line 441). -/
def finalAmount (v : Voucher) (order_amount : Nat) : Int :=
  (order_amount : Int) - (computeDiscount v order_amount : Int)

/-- `startAt && now < startAt` (`server.js` line 375): a null `start_at` skips the check. -/
def isNotStarted (start_at : Option Int) (now : Int) : Bool :=
  match start_at with
  | some s => decide (now < s)
  | none => false

/-- `endAt && now > endAt` (`server.js` line 383): a null `end_at` skips the check. -/
def isExpired (end_at : Option Int) (now : Int) : Bool :=
  match end_at with
  | some e => decide (e < now)
  | none => false

/-- The query at `server.js` lines 407-412: select from `voucher_redemptions` filtered
by `voucher_id` and `user_id` only — there is no filter on `status` — finished with
`.single()`.  `.single()` yields a row exactly when the result set has one row; with
zero or with two-or-more matching rows it reports an error, and the handler's
destructured `data` (`existingRedeem`) is null. -/
def findRedemption (ledger : List Redemption) (voucher_id user_id : Nat) :
    Option Redemption :=
  match ledger.filter
      (fun r => decide (r.voucher_id = voucher_id ∧ r.user_id = user_id)) with
  | [r] => some r
  | _ => none

/-- The `data` object of the successful redeem response (`server.js` lines 494-504). -/
structure SuccessPayload where
  voucher_code : String
  voucher_name : String
  discount_type : DiscountType
  discount_value : Nat
  order_amount : Nat
  discount_amount : Nat
  final_amount : Int
  currency : String
  redeemed_at : Int
deriving DecidableEq, Repr

/-- The distinct responses the redeem route can produce, one constructor per
`return res.status(...)` site of `server.js` lines 331-513 plus the 403 of the
`requireUser` middleware. -/
inductive RedeemResult where
  /-- 400, zod rejected the body (`order_amount` not a positive integer). -/
  | validationError
  /-- 404, voucher code unknown. -/
  | notFound
  /-- 400 "Voucher sudah tidak aktif". -/
  | inactive
  /-- 400 "Voucher belum bisa digunakan", carries `start_at`. -/
  | notStarted (start_at : Int)
  /-- 400 "Voucher sudah expired", carries `end_at`. -/
  | expired (end_at : Int)
  /-- 400 "Voucher sudah habis digunakan". -/
  | exhausted
  /-- 400 "Minimum order amount adalah ...", carries the minimum. -/
  | belowMinimum (min_order_amount : Nat)
  /-- 400 "Kamu sudah pernah menggunakan voucher ini", carries prior `redeemed_at`. -/
  | alreadyRedeemed (redeemed_at : Int)
  /-- 500 "Gagal memproses redeem, silakan coba lagi" (conditional update errored). -/
  | updateFailed
  /-- 500 "Gagal menyimpan redemption" (ledger insert errored). -/
  | insertFailed
  /-- 403 from `requireUser` (role is not "USER"). -/
  | forbidden
  /-- 200 success payload. -/
  | success (p : SuccessPayload)
deriving DecidableEq, Repr

/-- The eligibility checks of the redeem handler on a fetched voucher
(`server.js` lines 364-420), in source order, short-circuiting at the first failure:
active, window start, window end, capacity, minimum order, duplicate redemption. -/
def voucherEligibility (voucher : Voucher) (now : Int) (order_amount : Nat)
    (ledger : List Redemption) (userId : Nat) : Option RedeemResult :=
  if voucher.is_active = false then some .inactive
  else if isNotStarted voucher.start_at now then
    some (.notStarted (voucher.start_at.getD 0))
  else if isExpired voucher.end_at now then
    some (.expired (voucher.end_at.getD 0))
  else if voucher.max_total_redemptions ≤ voucher.total_redeemed then some .exhausted
  else if order_amount < voucher.min_order_amount then
    some (.belowMinimum voucher.min_order_amount)
  else
    match findRedemption ledger voucher.id userId with
    | some r => some (.alreadyRedeemed r.redeemed_at)
    | none => none

/-- The full eligibility sequence of `server.js` lines 350-420, starting with the
voucher lookup (404 when the code is unknown). -/
def checkEligibility (lookup : Option Voucher) (now : Int) (order_amount : Nat)
    (ledger : List Redemption) (userId : Nat) : Option RedeemResult :=
  match lookup with
  | none => some .notFound
  | some voucher => voucherEligibility voucher now order_amount ledger userId

/-- A write issued by a handler to Supabase.  For updates of `total_redeemed`,
`expected_total_redeemed` records whether the update statement carries the
optimistic-locking filter `.eq("total_redeemed", expected)` (`some expected`)
or is filtered by voucher id alone (`none`). -/
inductive DbOp where
  | updateTotalRedeemed (id : Nat) (new_total_redeemed : Nat)
      (expected_total_redeemed : Option Nat)
  | insertRedemption (r : Redemption)
  | insertVoucher (v : Voucher)
  | updateVoucher (id : Nat) (v : Voucher)
  | deleteVoucher (id : Nat)
deriving DecidableEq, Repr

/-- What one run of the redeem route leaves behind: the HTTP-level result, the
resulting catalog row for the voucher concerned, the resulting ledger rows for the
(voucher, user) pair, the trace of writes attempted in order, and the number of
conditional-update attempts the run performed. -/
structure RedeemOutcome where
  result : RedeemResult
  voucher : Option Voucher
  ledger : List Redemption
  ops : List DbOp
  update_attempts : Nat
deriving DecidableEq, Repr

/-- The POST `/vouchers/:code/redeem` handler body (`server.js` lines 331-513), after
the middleware chain.  Inputs: the voucher row the code lookup returns, the clock, the
validated body, the ledger rows for the (voucher, user) pair, and the caller's user id.

Storage outcomes are injected:
- `condMatches` — whether the optimistic filter `.eq("total_redeemed", snapshot)` of
  the conditional update still matches the stored row; it is false exactly when a
  concurrent commit changed `total_redeemed` between the read and the write.  A
  zero-row update raises no supabase error (PostgREST answers 204, `updateError`
  stays null), so the handler cannot observe a condition failure and proceeds either
  way; only when the filter matches does the increment apply.
- `updateErrors` — the update call itself reports an error (a storage fault; a
  zero-row conditional match is not an error).
- `insertFails` — the ledger insert reports an error.
- `rollbackFails` — the compensating update fails (the handler ignores its result).

The `voucher` field of the outcome is the catalog row as left by this request's own
writes, starting from the snapshot; when `condMatches` is false this request never
changes the counter, so the snapshot value is reported (a concurrent writer's exact
count is outside this single-request model). -/
def redeemHandler (lookup : Option Voucher) (now : Int) (order_amount : Nat)
    (order_id : Option String) (ledger : List Redemption) (userId : Nat)
    (condMatches updateErrors insertFails rollbackFails : Bool) (ts : Int) :
    RedeemOutcome :=
  if order_amount = 0 then
    { result := .validationError, voucher := lookup, ledger := ledger,
      ops := [], update_attempts := 0 }
  else
    match checkEligibility lookup now order_amount ledger userId with
    | some e =>
        { result := e, voucher := lookup, ledger := ledger,
          ops := [], update_attempts := 0 }
    | none =>
      match lookup with
      | none =>
          { result := .notFound, voucher := none, ledger := ledger,
            ops := [], update_attempts := 0 }
      | some voucher =>
        let discount_amount := computeDiscount voucher order_amount
        let final_amount : Int := (order_amount : Int) - (discount_amount : Int)
        let newTotalRedeemed := voucher.total_redeemed + 1
        let incOp : DbOp :=
          .updateTotalRedeemed voucher.id newTotalRedeemed (some voucher.total_redeemed)
        if updateErrors then
          { result := .updateFailed, voucher := some voucher, ledger := ledger,
            ops := [incOp], update_attempts := 1 }
        else
          let voucherAfterInc : Voucher :=
            if condMatches then { voucher with total_redeemed := newTotalRedeemed }
            else voucher
          let newRow : Redemption :=
            { voucher_id := voucher.id, user_id := userId, order_id := order_id,
              order_amount := order_amount, discount_amount := discount_amount,
              final_amount := final_amount, status := .SUCCESS, redeemed_at := ts }
          let insOp : DbOp := .insertRedemption newRow
          if insertFails then
            let rollbackOp : DbOp :=
              .updateTotalRedeemed voucher.id voucher.total_redeemed none
            { result := .insertFailed,
              voucher := some (if rollbackFails then voucherAfterInc else voucher),
              ledger := ledger, ops := [incOp, insOp, rollbackOp],
              update_attempts := 1 }
          else
            { result := .success
                { voucher_code := voucher.code, voucher_name := voucher.name,
                  discount_type := voucher.discount_type,
                  discount_value := voucher.discount_value,
                  order_amount := order_amount, discount_amount := discount_amount,
                  final_amount := final_amount, currency := voucher.currency,
                  redeemed_at := ts },
              voucher := some voucherAfterInc, ledger := ledger ++ [newRow],
              ops := [incOp, insOp], update_attempts := 1 }

/-- The caller identity `authenticateToken` attaches to the request
(`middleware/auth.js` lines 52-57). -/
structure AuthUser where
  id : Nat
  role : String
deriving DecidableEq, Repr

/-- The redeem route as registered at `server.js` line 331:
`requireUser` (`middleware/auth.js` lines 95-111) runs before the handler and rejects
any caller whose role is not exactly "USER" with 403 Forbidden; otherwise the handler
runs with `userId = req.user.id`. -/
def redeemRoute (user : AuthUser) (lookup : Option Voucher) (now : Int)
    (order_amount : Nat) (order_id : Option String) (ledger : List Redemption)
    (condMatches updateErrors insertFails rollbackFails : Bool) (ts : Int) :
    RedeemOutcome :=
  if user.role ≠ "USER" then
    { result := .forbidden, voucher := lookup, ledger := ledger,
      ops := [], update_attempts := 0 }
  else
    redeemHandler lookup now order_amount order_id ledger user.id
      condMatches updateErrors insertFails rollbackFails ts

/-- The zod-validated body of POST `/vouchers` (`createVoucherSchema`,
`server.js` lines 158-170): `discount_value` positive, `min_order_amount ≥ 0`,
`max_discount_amount` optional `≥ 0`, `max_total_redemptions` positive (default 1). -/
structure CreateData where
  code : String
  name : String
  discount_type : DiscountType
  discount_value : Nat
  currency : String
  min_order_amount : Nat
  max_discount_amount : Option Nat
  max_total_redemptions : Nat
  start_at : Option Int
  end_at : Option Int
deriving DecidableEq, Repr

inductive CreateResult where
  | validationError
  | conflict
  | dbError
  | ok (v : Voucher)
deriving DecidableEq, Repr

/-- The POST `/vouchers` handler (`server.js` lines 205-285) on the catalog row
currently stored under the requested code (`current`, the duplicate-code lookup).
Order of checks as in the source: PERCENT value bound, window order, duplicate code,
then the insert with `total_redeemed: 0`, `is_active: true`. -/
def createHandler (current : Option Voucher) (input : CreateData) (dbFails : Bool)
    (newId : Nat) : CreateResult × Option Voucher :=
  if input.discount_type = .PERCENT ∧ 100 < input.discount_value then
    (.validationError, current)
  else
    let windowInvalid : Bool :=
      match input.start_at, input.end_at with
      | some s, some e => decide (e < s)
      | _, _ => false
    if windowInvalid then (.validationError, current)
    else
      match current with
      | some v => (.conflict, some v)
      | none =>
        if dbFails then (.dbError, none)
        else
          let v : Voucher :=
            { id := newId, code := input.code, name := input.name,
              discount_type := input.discount_type,
              discount_value := input.discount_value, currency := input.currency,
              min_order_amount := input.min_order_amount,
              max_discount_amount := input.max_discount_amount,
              max_total_redemptions := input.max_total_redemptions,
              total_redeemed := 0, is_active := true,
              start_at := input.start_at, end_at := input.end_at }
          (.ok v, some v)

/-- The zod-validated body of PUT `/vouchers/:id` (`server.js` lines 521-533):
every field optional; `total_redeemed` is not an updatable field. -/
structure UpdateData where
  name : Option String
  discount_type : Option DiscountType
  discount_value : Option Nat
  currency : Option String
  min_order_amount : Option Nat
  max_discount_amount : Option Nat
  max_total_redemptions : Option Nat
  start_at : Option Int
  end_at : Option Int
  is_active : Option Bool
deriving DecidableEq, Repr

/-- The row produced by `supabase.update(updateData)` (`server.js` lines 584-589):
each provided field replaces the stored one, the rest keep their stored values. -/
def applyUpdate (existing : Voucher) (u : UpdateData) : Voucher :=
  { existing with
    name := u.name.getD existing.name,
    discount_type := u.discount_type.getD existing.discount_type,
    discount_value := u.discount_value.getD existing.discount_value,
    currency := u.currency.getD existing.currency,
    min_order_amount := u.min_order_amount.getD existing.min_order_amount,
    max_discount_amount :=
      match u.max_discount_amount with
      | some m => some m
      | none => existing.max_discount_amount,
    max_total_redemptions :=
      u.max_total_redemptions.getD existing.max_total_redemptions,
    start_at :=
      match u.start_at with
      | some s => some s
      | none => existing.start_at,
    end_at :=
      match u.end_at with
      | some e => some e
      | none => existing.end_at,
    is_active := u.is_active.getD existing.is_active }

inductive UpdateResult where
  | notFound
  | validationError
  | dbError
  | ok (v : Voucher)
deriving DecidableEq, Repr

/-- The PUT `/vouchers/:id` handler (`server.js` lines 516-612) on the row the id
lookup returns.  Checks, in source order: existence, PERCENT value bound on the merged
`discount_type`/`discount_value` (`updateData.x || existing.x`), window order on the
merged `start_at`/`end_at`; then the update is written.  There is no check of
`max_total_redemptions` against the stored `total_redeemed`. -/
def updateHandler (lookup : Option Voucher) (u : UpdateData) (dbFails : Bool) :
    UpdateResult × Option Voucher :=
  match lookup with
  | none => (.notFound, none)
  | some existing =>
    let discountType := u.discount_type.getD existing.discount_type
    let discountValue := u.discount_value.getD existing.discount_value
    if discountType = .PERCENT ∧ 100 < discountValue then
      (.validationError, some existing)
    else
      let startAt : Option Int :=
        match u.start_at with
        | some s => some s
        | none => existing.start_at
      let endAt : Option Int :=
        match u.end_at with
        | some e => some e
        | none => existing.end_at
      let windowInvalid : Bool :=
        match startAt, endAt with
        | some s, some e => decide (e < s)
        | _, _ => false
      if windowInvalid then (.validationError, some existing)
      else if dbFails then (.dbError, some existing)
      else
        let v := applyUpdate existing u
        (.ok v, some v)

inductive DeleteResult where
  | notFound
  | rejectedUsed (total_redeemed : Nat)
  | dbError
  | ok
deriving DecidableEq, Repr

/-- The DELETE `/vouchers/:id` handler (`server.js` lines 615-668) on the row the id
lookup returns: 404 when absent, 400 when `total_redeemed > 0`, else the row is
deleted (unless the delete itself errors). -/
def deleteHandler (lookup : Option Voucher) (dbFails : Bool) :
    DeleteResult × Option Voucher :=
  match lookup with
  | none => (.notFound, none)
  | some existing =>
    if 0 < existing.total_redeemed then
      (.rejectedUsed existing.total_redeemed, some existing)
    else if dbFails then (.dbError, some existing)
    else (.ok, none)

/-- One public operation on a catalog row, with its injected storage outcomes. -/
inductive CatalogOp where
  | create (input : CreateData) (dbFails : Bool) (newId : Nat)
  | update (u : UpdateData) (dbFails : Bool)
  | delete (dbFails : Bool)
  | redeem (now : Int) (order_amount : Nat) (order_id : Option String)
      (ledger : List Redemption) (userId : Nat)
      (condMatches updateErrors insertFails rollbackFails : Bool) (ts : Int)

/-- The catalog row for one voucher after running one public operation against it. -/
def applyOp (row : Option Voucher) (op : CatalogOp) : Option Voucher :=
  match op with
  | .create input dbFails newId => (createHandler row input dbFails newId).2
  | .update u dbFails => (updateHandler row u dbFails).2
  | .delete dbFails => (deleteHandler row dbFails).2
  | .redeem now order_amount order_id ledger userId cm ue inf rf ts =>
      (redeemHandler row now order_amount order_id ledger userId
        cm ue inf rf ts).voucher

/-- The capacity invariant of the data model: `0 ≤ redeemed_count ≤ max_redemptions`
(the lower bound is inherent in `Nat`). -/
def voucherInvariant (v : Voucher) : Prop :=
  v.total_redeemed ≤ v.max_total_redemptions

instance (v : Voucher) : Decidable (voucherInvariant v) := by
  unfold voucherInvariant
  infer_instance

/-- An update operation does not shrink `max_total_redemptions` below the stored
`total_redeemed`; trivially true for every other operation.  This is the side
condition under which the PUT handler preserves the capacity invariant. -/
def opKeepsCapacity (row : Option Voucher) (op : CatalogOp) : Prop :=
  match op with
  | .update u _ => ∀ v, row = some v →
      v.total_redeemed ≤ u.max_total_redemptions.getD v.max_total_redemptions
  | _ => True

/-! Concrete rows used by witnesses and counterexamples. -/

/-- The voucher of the spec's worked scenario: PERCENT 30, cap 30000, minimum 50000,
one redemption. -/
def vBase : Voucher :=
  { id := 7, code := "NEWYEAR2026", name := "New Year Discount",
    discount_type := .PERCENT, discount_value := 30, currency := "IDR",
    min_order_amount := 50000, max_discount_amount := some 30000,
    max_total_redemptions := 1, total_redeemed := 0, is_active := true,
    start_at := none, end_at := none }

/-- `vBase` without a minimum, so that small orders pass eligibility. -/
def vPlain : Voucher := { vBase with min_order_amount := 0 }

/-- `vBase` with a zero (JavaScript-falsy) `max_discount_amount`. -/
def vZeroCap : Voucher := { vPlain with max_discount_amount := some 0 }

/-- A partially-redeemed row: 5 of 10 redemptions used. -/
def vUsed : Voucher := { vBase with total_redeemed := 5, max_total_redemptions := 10 }

/-- An update body that touches nothing. -/
def uNone : UpdateData :=
  { name := none, discount_type := none, discount_value := none, currency := none,
    min_order_amount := none, max_discount_amount := none,
    max_total_redemptions := none, start_at := none, end_at := none,
    is_active := none }

/-- An update body shrinking `max_total_redemptions` to 3. -/
def uShrink : UpdateData := { uNone with max_total_redemptions := some 3 }

/-- An update body raising `max_total_redemptions` to 7. -/
def uGrow : UpdateData := { uNone with max_total_redemptions := some 7 }

/-- A CANCELLED ledger row for voucher 7, user 9. -/
def rCancelled : Redemption :=
  { voucher_id := 7, user_id := 9, order_id := none, order_amount := 100000,
    discount_amount := 30000, final_amount := 70000, status := .CANCELLED,
    redeemed_at := 42 }

/-- A SUCCESS ledger row for voucher 7, user 9. -/
def rSuccess : Redemption :=
  { voucher_id := 7, user_id := 9, order_id := some "ORD-001", order_amount := 150000,
    discount_amount := 30000, final_amount := 120000, status := .SUCCESS,
    redeemed_at := 17 }

/-! Theorems. -/

/-- Claim C7: for every voucher whose PERCENT `discount_value` is at most 100 and every
positive `order_amount`, the computed discount is between 0 and `order_amount`
(a FIXED discount above the order is clamped to it), and
`final_amount = order_amount - discount_amount` is non-negative. -/
theorem discount_bounds (v : Voucher) (order_amount : Nat)
    (_hpos : 0 < order_amount)
    (hpct : v.discount_type = .PERCENT → v.discount_value ≤ 100) :
    computeDiscount v order_amount ≤ order_amount ∧
    0 ≤ finalAmount v order_amount := by
  have hle : computeDiscount v order_amount ≤ order_amount := by
    cases hk : v.discount_type with
    | FIXED =>
        simp only [computeDiscount, hk]
        split <;> omega
    | PERCENT =>
        have hv : v.discount_value ≤ 100 := hpct hk
        have hd : order_amount * v.discount_value / 100 ≤ order_amount := by
          calc order_amount * v.discount_value / 100
              ≤ order_amount * 100 / 100 :=
                Nat.div_le_div_right (Nat.mul_le_mul_left _ hv)
            _ = order_amount := Nat.mul_div_cancel order_amount (by norm_num)
        cases hm : v.max_discount_amount with
        | none => simpa only [computeDiscount, hk, hm] using hd
        | some m =>
            simp only [computeDiscount, hk, hm]
            split <;> omega
  refine ⟨hle, ?_⟩
  unfold finalAmount
  omega

/-- Witness for `discount_bounds` at the spec's scenario voucher and order. -/
theorem discount_bounds_witness :
    computeDiscount vBase 150000 ≤ 150000 ∧ 0 ≤ finalAmount vBase 150000 :=
  discount_bounds vBase 150000 (by decide) (by decide)

/-- Claim C6, counterexample: with `max_discount_amount = 0` the PERCENT clamp is
skipped (JavaScript truthiness treats 0 like null), so for the voucher `vZeroCap`
(PERCENT 30, cap 0) and order 100 the discount is 30, not clamped to the cap 0 the
claim requires. -/
theorem percent_zero_cap_not_clamped :
    vZeroCap.max_discount_amount = some 0 ∧
    computeDiscount vZeroCap 100 = 30 ∧
    computeDiscount vZeroCap 100 ≠ 0 := by decide

/-- Claim C6 as amended: for a PERCENT voucher the discount is
`floor(order_amount * discount_value / 100)`, clamped to `max_discount_amount` exactly
when that cap is set to a positive value which the floor exceeds; a cap of 0 or null
leaves the floor unclamped; in the spec's scenario (PERCENT 30, cap 30000,
order 150000) the discount is 30000 and the final amount 120000. -/
theorem percent_discount_cap (v : Voucher) (order_amount m : Nat)
    (hk : v.discount_type = .PERCENT) :
    (v.max_discount_amount = some m → 0 < m →
        m < order_amount * v.discount_value / 100 →
        computeDiscount v order_amount = m) ∧
    (v.max_discount_amount = some m →
        order_amount * v.discount_value / 100 ≤ m →
        computeDiscount v order_amount = order_amount * v.discount_value / 100) ∧
    (v.max_discount_amount = some 0 ∨ v.max_discount_amount = none →
        computeDiscount v order_amount = order_amount * v.discount_value / 100) ∧
    (computeDiscount vBase 150000 = 30000 ∧ finalAmount vBase 150000 = 120000) := by
  refine ⟨?_, ?_, ?_, by decide⟩
  · intro hm hpos hlt
    simp only [computeDiscount, hk, hm]
    split
    · rfl
    · omega
  · intro hm hle
    simp only [computeDiscount, hk, hm]
    split
    · omega
    · rfl
  · intro hm
    cases hm with
    | inl h0 =>
        simp only [computeDiscount, hk, h0]
        split
        · omega
        · rfl
    | inr hn => simp only [computeDiscount, hk, hn]

/-- Witness for `percent_discount_cap`: the clamp fires on the scenario voucher. -/
theorem percent_discount_cap_witness :
    computeDiscount vBase 150000 = 30000 :=
  (percent_discount_cap vBase 150000 30000 (by decide)).1 (by decide) (by decide)
    (by decide)

/-- Claim C9: for an existing voucher, delete succeeds exactly when
`total_redeemed = 0` (success implying an unredeemed voucher holds even under an
injected storage fault); with `total_redeemed > 0` the request is rejected with an
error carrying the count and the row is left in place. -/
theorem delete_iff_unredeemed (v : Voucher) (dbFails : Bool) :
    ((deleteHandler (some v) dbFails).1 = .ok → v.total_redeemed = 0) ∧
    (v.total_redeemed = 0 → dbFails = false →
        deleteHandler (some v) dbFails = (.ok, none)) ∧
    (0 < v.total_redeemed →
        deleteHandler (some v) dbFails =
          (.rejectedUsed v.total_redeemed, some v)) := by
  refine ⟨?_, ?_, ?_⟩
  · intro hok
    by_contra hne
    have hpos : 0 < v.total_redeemed := Nat.pos_of_ne_zero hne
    simp only [deleteHandler, if_pos hpos] at hok
    exact DeleteResult.noConfusion hok
  · intro hz hdb
    subst hdb
    simp [deleteHandler, hz]
  · intro hpos
    simp only [deleteHandler, if_pos hpos]

/-- Witness for `delete_iff_unredeemed`: deleting the unredeemed `vBase` succeeds and
removes the row; its hypotheses are discharged at `total_redeemed = 0`. -/
theorem delete_iff_unredeemed_witness :
    deleteHandler (some vBase) false = (.ok, none) :=
  (delete_iff_unredeemed vBase false).2.1 (by decide) rfl

/-- Claim C10: a caller whose role is not exactly "USER" (an ADMIN in particular) is
rejected by `requireUser` with 403 Forbidden before the redeem handler runs: the
outcome is `forbidden` with no writes, no conditional-update attempt, and the voucher
and ledger unchanged, whatever the database contents. -/
theorem non_user_cannot_redeem (user : AuthUser) (hrole : user.role ≠ "USER")
    (lookup : Option Voucher) (now : Int) (order_amount : Nat)
    (order_id : Option String) (ledger : List Redemption)
    (cm ue inf rf : Bool) (ts : Int) :
    redeemRoute user lookup now order_amount order_id ledger cm ue inf rf ts =
      { result := .forbidden, voucher := lookup, ledger := ledger,
        ops := [], update_attempts := 0 } := by
  simp only [redeemRoute, if_pos hrole]

/-- Witness for `non_user_cannot_redeem`: an ADMIN redeeming the scenario voucher is
turned away with the state untouched. -/
theorem non_user_cannot_redeem_witness :
    redeemRoute { id := 1, role := "ADMIN" } (some vBase) 0 150000 none []
        true false false false 5 =
      { result := .forbidden, voucher := some vBase, ledger := [],
        ops := [], update_attempts := 0 } :=
  non_user_cannot_redeem { id := 1, role := "ADMIN" } (by decide)
    (some vBase) 0 150000 none [] true false false false 5

/-! Characterization of the eligibility chain: which error each input produces.
These lemmas make the short-circuit order of `voucherEligibility` explicit. -/

theorem voucherEligibility_inactive_iff (v : Voucher) (now : Int) (amt : Nat)
    (ledger : List Redemption) (uid : Nat) :
    voucherEligibility v now amt ledger uid = some .inactive ↔
      v.is_active = false := by
  unfold voucherEligibility
  split_ifs with h1 h2 h3 h4 h5
  · simp [h1]
  · simp [h1]
  · simp [h1]
  · simp [h1]
  · simp [h1]
  · rcases hfr : findRedemption ledger v.id uid with _ | r <;> simp [hfr, h1]

theorem voucherEligibility_notStarted_iff (v : Voucher) (now : Int) (amt : Nat)
    (ledger : List Redemption) (uid : Nat) (s : Int) :
    voucherEligibility v now amt ledger uid = some (.notStarted s) ↔
      v.is_active = true ∧ v.start_at = some s ∧ now < s := by
  constructor
  · intro h
    unfold voucherEligibility at h
    split_ifs at h with h1 h2 h3 h4 h5
    · simp at h
    · rcases hs : v.start_at with _ | s'
      · rw [hs] at h2
        simp [isNotStarted] at h2
      · rw [hs] at h2 h
        simp only [isNotStarted, decide_eq_true_eq] at h2
        simp only [Option.getD_some, Option.some.injEq,
          RedeemResult.notStarted.injEq] at h
        subst h
        exact ⟨by simpa using h1, rfl, h2⟩
    · simp at h
    · simp at h
    · simp at h
    · rcases hfr : findRedemption ledger v.id uid with _ | r
      · rw [hfr] at h
        exact Option.noConfusion h
      · rw [hfr] at h
        simp at h
  · rintro ⟨hact, hs, hlt⟩
    unfold voucherEligibility
    rw [if_neg (by simp [hact]),
      if_pos (by simp [isNotStarted, hs, decide_eq_true_eq, hlt]), hs]
    rfl

theorem voucherEligibility_expired_iff (v : Voucher) (now : Int) (amt : Nat)
    (ledger : List Redemption) (uid : Nat) (e : Int) :
    voucherEligibility v now amt ledger uid = some (.expired e) ↔
      v.is_active = true ∧ isNotStarted v.start_at now = false ∧
      v.end_at = some e ∧ e < now := by
  constructor
  · intro h
    unfold voucherEligibility at h
    split_ifs at h with h1 h2 h3 h4 h5
    · simp at h
    · simp at h
    · rcases he : v.end_at with _ | e'
      · rw [he] at h3
        simp [isExpired] at h3
      · rw [he] at h3 h
        simp only [isExpired, decide_eq_true_eq] at h3
        simp only [Option.getD_some, Option.some.injEq,
          RedeemResult.expired.injEq] at h
        subst h
        exact ⟨by simpa using h1, by simpa using h2, rfl, h3⟩
    · simp at h
    · simp at h
    · rcases hfr : findRedemption ledger v.id uid with _ | r
      · rw [hfr] at h
        exact Option.noConfusion h
      · rw [hfr] at h
        simp at h
  · rintro ⟨hact, hns, he, hlt⟩
    unfold voucherEligibility
    rw [if_neg (by simp [hact]), if_neg (by simp [hns]),
      if_pos (by simp [isExpired, he, decide_eq_true_eq, hlt]), he]
    rfl

theorem voucherEligibility_exhausted_iff (v : Voucher) (now : Int) (amt : Nat)
    (ledger : List Redemption) (uid : Nat) :
    voucherEligibility v now amt ledger uid = some .exhausted ↔
      v.is_active = true ∧ isNotStarted v.start_at now = false ∧
      isExpired v.end_at now = false ∧
      v.max_total_redemptions ≤ v.total_redeemed := by
  constructor
  · intro h
    unfold voucherEligibility at h
    split_ifs at h with h1 h2 h3 h4 h5
    · simp at h
    · simp at h
    · simp at h
    · exact ⟨by simpa using h1, by simpa using h2, by simpa using h3, h4⟩
    · simp at h
    · rcases hfr : findRedemption ledger v.id uid with _ | r
      · rw [hfr] at h
        exact Option.noConfusion h
      · rw [hfr] at h
        simp at h
  · rintro ⟨hact, hns, hexp, hcap⟩
    unfold voucherEligibility
    rw [if_neg (by simp [hact]), if_neg (by simp [hns]),
      if_neg (by simp [hexp]), if_pos hcap]

theorem voucherEligibility_belowMinimum_iff (v : Voucher) (now : Int) (amt : Nat)
    (ledger : List Redemption) (uid : Nat) (m : Nat) :
    voucherEligibility v now amt ledger uid = some (.belowMinimum m) ↔
      v.is_active = true ∧ isNotStarted v.start_at now = false ∧
      isExpired v.end_at now = false ∧
      v.total_redeemed < v.max_total_redemptions ∧
      amt < v.min_order_amount ∧ m = v.min_order_amount := by
  constructor
  · intro h
    unfold voucherEligibility at h
    split_ifs at h with h1 h2 h3 h4 h5
    · simp at h
    · simp at h
    · simp at h
    · simp at h
    · simp only [Option.some.injEq, RedeemResult.belowMinimum.injEq] at h
      exact ⟨by simpa using h1, by simpa using h2, by simpa using h3,
        Nat.lt_of_not_le h4, h5, h.symm⟩
    · rcases hfr : findRedemption ledger v.id uid with _ | r
      · rw [hfr] at h
        exact Option.noConfusion h
      · rw [hfr] at h
        simp at h
  · rintro ⟨hact, hns, hexp, hcap, hmin, rfl⟩
    unfold voucherEligibility
    rw [if_neg (by simp [hact]), if_neg (by simp [hns]),
      if_neg (by simp [hexp]), if_neg (Nat.not_le.mpr hcap), if_pos hmin]

theorem voucherEligibility_alreadyRedeemed_iff (v : Voucher) (now : Int) (amt : Nat)
    (ledger : List Redemption) (uid : Nat) (t : Int) :
    voucherEligibility v now amt ledger uid = some (.alreadyRedeemed t) ↔
      v.is_active = true ∧ isNotStarted v.start_at now = false ∧
      isExpired v.end_at now = false ∧
      v.total_redeemed < v.max_total_redemptions ∧
      v.min_order_amount ≤ amt ∧
      ∃ r, findRedemption ledger v.id uid = some r ∧ r.redeemed_at = t := by
  constructor
  · intro h
    unfold voucherEligibility at h
    split_ifs at h with h1 h2 h3 h4 h5
    · simp at h
    · simp at h
    · simp at h
    · simp at h
    · simp at h
    · rcases hfr : findRedemption ledger v.id uid with _ | r
      · rw [hfr] at h
        exact Option.noConfusion h
      · rw [hfr] at h
        simp only [Option.some.injEq, RedeemResult.alreadyRedeemed.injEq] at h
        exact ⟨by simpa using h1, by simpa using h2, by simpa using h3,
          Nat.lt_of_not_le h4, Nat.not_lt.mp h5, r, rfl, h⟩
  · rintro ⟨hact, hns, hexp, hcap, hmin, r, hfr, rfl⟩
    unfold voucherEligibility
    rw [if_neg (by simp [hact]), if_neg (by simp [hns]),
      if_neg (by simp [hexp]), if_neg (Nat.not_le.mpr hcap),
      if_neg (Nat.not_lt.mpr hmin), hfr]

theorem voucherEligibility_none_iff (v : Voucher) (now : Int) (amt : Nat)
    (ledger : List Redemption) (uid : Nat) :
    voucherEligibility v now amt ledger uid = none ↔
      v.is_active = true ∧ isNotStarted v.start_at now = false ∧
      isExpired v.end_at now = false ∧
      v.total_redeemed < v.max_total_redemptions ∧
      v.min_order_amount ≤ amt ∧
      findRedemption ledger v.id uid = none := by
  constructor
  · intro h
    unfold voucherEligibility at h
    split_ifs at h with h1 h2 h3 h4 h5
    rcases hfr : findRedemption ledger v.id uid with _ | r
    · exact ⟨by simpa using h1, by simpa using h2, by simpa using h3,
        Nat.lt_of_not_le h4, Nat.not_lt.mp h5, by simp [hfr]⟩
    · rw [hfr] at h
      simp at h
  · rintro ⟨hact, hns, hexp, hcap, hmin, hfr⟩
    unfold voucherEligibility
    rw [if_neg (by simp [hact]), if_neg (by simp [hns]),
      if_neg (by simp [hexp]), if_neg (Nat.not_le.mpr hcap),
      if_neg (Nat.not_lt.mpr hmin), hfr]

/-- On any eligibility failure the handler returns that error and performs no write:
the operation trace is empty, the voucher row and the ledger are returned unchanged,
and no conditional-update attempt is made. -/
theorem redeemHandler_eligibility_error (lookup : Option Voucher) (now : Int)
    (order_amount : Nat) (order_id : Option String) (ledger : List Redemption)
    (userId : Nat) (cm ue inf rf : Bool) (ts : Int) (e : RedeemResult)
    (hamt : order_amount ≠ 0)
    (helig : checkEligibility lookup now order_amount ledger userId = some e) :
    redeemHandler lookup now order_amount order_id ledger userId cm ue inf rf ts =
      { result := e, voucher := lookup, ledger := ledger, ops := [],
        update_attempts := 0 } := by
  simp only [redeemHandler, if_neg hamt, helig]

/-- The per-voucher checks never produce `notFound`: that error belongs to the lookup
alone. -/
theorem voucherEligibility_ne_notFound (v : Voucher) (now : Int) (amt : Nat)
    (ledger : List Redemption) (uid : Nat) :
    voucherEligibility v now amt ledger uid ≠ some .notFound := by
  unfold voucherEligibility
  split_ifs <;> try simp
  rcases hfr : findRedemption ledger v.id uid with _ | r <;> simp

/-- Claim C4: a failing redemption request receives the error of the earliest failing
check, evaluated in the fixed source order — voucher exists (`notFound`), active
(`inactive`), window start (`notStarted`, carrying `start_at`), window end (`expired`,
carrying `end_at`), capacity (`exhausted`), minimum order (`belowMinimum`, carrying
the minimum), duplicate redemption (`alreadyRedeemed`) — and on any eligibility
failure the handler performs no write: empty operation trace, zero conditional-update
attempts, voucher row and ledger unchanged. -/
theorem eligibility_first_failure (lookup : Option Voucher) (now : Int)
    (order_amount : Nat) (order_id : Option String) (ledger : List Redemption)
    (userId : Nat) (cm ue inf rf : Bool) (ts : Int)
    (hamt : order_amount ≠ 0) :
    (checkEligibility lookup now order_amount ledger userId = some .notFound ↔
      lookup = none) ∧
    (checkEligibility lookup now order_amount ledger userId = some .inactive ↔
      ∃ v, lookup = some v ∧ v.is_active = false) ∧
    (∀ s, checkEligibility lookup now order_amount ledger userId =
        some (.notStarted s) ↔
      ∃ v, lookup = some v ∧ v.is_active = true ∧ v.start_at = some s ∧ now < s) ∧
    (∀ e, checkEligibility lookup now order_amount ledger userId =
        some (.expired e) ↔
      ∃ v, lookup = some v ∧ v.is_active = true ∧
        isNotStarted v.start_at now = false ∧ v.end_at = some e ∧ e < now) ∧
    (checkEligibility lookup now order_amount ledger userId = some .exhausted ↔
      ∃ v, lookup = some v ∧ v.is_active = true ∧
        isNotStarted v.start_at now = false ∧ isExpired v.end_at now = false ∧
        v.max_total_redemptions ≤ v.total_redeemed) ∧
    (∀ m, checkEligibility lookup now order_amount ledger userId =
        some (.belowMinimum m) ↔
      ∃ v, lookup = some v ∧ v.is_active = true ∧
        isNotStarted v.start_at now = false ∧ isExpired v.end_at now = false ∧
        v.total_redeemed < v.max_total_redemptions ∧
        order_amount < v.min_order_amount ∧ m = v.min_order_amount) ∧
    (∀ t, checkEligibility lookup now order_amount ledger userId =
        some (.alreadyRedeemed t) ↔
      ∃ v, lookup = some v ∧ v.is_active = true ∧
        isNotStarted v.start_at now = false ∧ isExpired v.end_at now = false ∧
        v.total_redeemed < v.max_total_redemptions ∧
        v.min_order_amount ≤ order_amount ∧
        ∃ r, findRedemption ledger v.id userId = some r ∧ r.redeemed_at = t) ∧
    (∀ e, checkEligibility lookup now order_amount ledger userId = some e →
      redeemHandler lookup now order_amount order_id ledger userId cm ue inf rf ts =
        { result := e, voucher := lookup, ledger := ledger, ops := [],
          update_attempts := 0 }) := by
  refine ⟨?_, ?_, ?_, ?_, ?_, ?_, ?_, ?_⟩
  · cases lookup with
    | none => simp [checkEligibility]
    | some v =>
        simp [checkEligibility, voucherEligibility_ne_notFound v now order_amount
          ledger userId]
  · cases lookup with
    | none => simp [checkEligibility]
    | some v =>
        simp only [checkEligibility, Option.some.injEq, exists_eq_left']
        exact voucherEligibility_inactive_iff v now order_amount ledger userId
  · intro s
    cases lookup with
    | none => simp [checkEligibility]
    | some v =>
        simp only [checkEligibility, Option.some.injEq, exists_eq_left']
        exact voucherEligibility_notStarted_iff v now order_amount ledger userId s
  · intro e
    cases lookup with
    | none => simp [checkEligibility]
    | some v =>
        simp only [checkEligibility, Option.some.injEq, exists_eq_left']
        exact voucherEligibility_expired_iff v now order_amount ledger userId e
  · cases lookup with
    | none => simp [checkEligibility]
    | some v =>
        simp only [checkEligibility, Option.some.injEq, exists_eq_left']
        exact voucherEligibility_exhausted_iff v now order_amount ledger userId
  · intro m
    cases lookup with
    | none => simp [checkEligibility]
    | some v =>
        simp only [checkEligibility, Option.some.injEq, exists_eq_left']
        exact voucherEligibility_belowMinimum_iff v now order_amount ledger userId m
  · intro t
    cases lookup with
    | none => simp [checkEligibility]
    | some v =>
        simp only [checkEligibility, Option.some.injEq, exists_eq_left']
        exact voucherEligibility_alreadyRedeemed_iff v now order_amount ledger userId t
  · intro e he
    exact redeemHandler_eligibility_error lookup now order_amount order_id ledger
      userId cm ue inf rf ts e hamt he

/-- Witness for `eligibility_first_failure`: an unknown code yields `notFound` with no
writes. -/
theorem eligibility_first_failure_witness :
    checkEligibility (none : Option Voucher) 0 5 [] 9 = some .notFound ∧
    redeemHandler none 0 5 none [] 9 true false false false 0 =
      { result := .notFound, voucher := none, ledger := [], ops := [],
        update_attempts := 0 } := by
  have h := eligibility_first_failure none 0 5 none [] 9 true false false false 0
    (by decide)
  exact ⟨h.1.mpr rfl, h.2.2.2.2.2.2.2 .notFound (h.1.mpr rfl)⟩

/-- Claim C3 (the code does not implement the protocol): on a genuine optimistic-lock
conflict — a concurrent commit changed `total_redeemed` between the read and the
conditional update, so the update's filter matches zero rows — supabase raises no
error, and the handler, after its single conditional-update attempt, inserts the
SUCCESS redemption and returns success with no increment applied by this request:
it neither retries nor surfaces any conflict error, and it does return success on
this path, contrary to the claim. -/
theorem silent_conflict_returns_success :
    (redeemHandler (some vPlain) 0 100 none [] 9 false false false false 5).result
      = .success
        { voucher_code := "NEWYEAR2026", voucher_name := "New Year Discount",
          discount_type := .PERCENT, discount_value := 30, order_amount := 100,
          discount_amount := 30, final_amount := 70, currency := "IDR",
          redeemed_at := 5 } ∧
    (redeemHandler (some vPlain) 0 100 none [] 9 false false false false 5).voucher
      = some vPlain ∧
    (redeemHandler (some vPlain) 0 100 none [] 9 false false false false 5).ledger
      = [{ voucher_id := 7, user_id := 9, order_id := none, order_amount := 100,
           discount_amount := 30, final_amount := 70, status := .SUCCESS,
           redeemed_at := 5 }] ∧
    (redeemHandler (some vPlain) 0 100 none [] 9 false false false
        false 5).update_attempts = 1 := by decide

/-- Claim C2, counterexample: after a successful increment and a failed ledger insert,
the compensating write the handler issues is filtered by voucher id alone — its
`expected_total_redeemed` is `none`, not the value this transaction set
(`some 1` here), so it is not the conditioned decrement the claim describes. -/
theorem rollback_not_conditioned :
    (redeemHandler (some vPlain) 0 100 none [] 9 true false true false 5).ops.getLast?
      = some (.updateTotalRedeemed 7 0 none) ∧
    (redeemHandler (some vPlain) 0 100 none [] 9 true false true false 5).ops.getLast?
      ≠ some (.updateTotalRedeemed 7 0 (some 1)) := by decide

/-- Claim C2 as amended: when the ledger insert fails after the conditional update,
the handler reports the 500 persistence error — never success — and issues a
compensating write that resets `total_redeemed` to the value read in step 1, filtered
by voucher id alone (`expected_total_redeemed = none`), not the decrement conditioned
on the value this transaction set that the claim describes; when the compensating
write succeeds, the voucher row is left at its step-1 value and the ledger without the
new row, so if this request's increment had applied the pre-increment state is
restored.  On the success path a matching SUCCESS ledger row is always appended, with
the counter incremented by this request exactly when the optimistic filter matched —
so success is never returned with this request's increment applied but no matching
row; after a silent zero-row conflict, however, success is returned with a row and no
increment (the defect recorded at claim C3). -/
theorem rollback_restores_state (voucher : Voucher) (now : Int) (order_amount : Nat)
    (order_id : Option String) (ledger : List Redemption) (userId : Nat) (ts : Int)
    (hamt : order_amount ≠ 0)
    (helig : checkEligibility (some voucher) now order_amount ledger userId = none) :
    (∀ cm, redeemHandler (some voucher) now order_amount order_id ledger userId
        cm false true false ts =
      { result := .insertFailed, voucher := some voucher, ledger := ledger,
        ops := [.updateTotalRedeemed voucher.id (voucher.total_redeemed + 1)
                  (some voucher.total_redeemed),
                .insertRedemption
                  { voucher_id := voucher.id, user_id := userId,
                    order_id := order_id, order_amount := order_amount,
                    discount_amount := computeDiscount voucher order_amount,
                    final_amount := (order_amount : Int) -
                      (computeDiscount voucher order_amount : Int),
                    status := .SUCCESS, redeemed_at := ts },
                .updateTotalRedeemed voucher.id voucher.total_redeemed none],
        update_attempts := 1 }) ∧
    (∀ cm ue inf rf p,
      (redeemHandler (some voucher) now order_amount order_id ledger userId
          cm ue inf rf ts).result = .success p →
      (∃ r, (redeemHandler (some voucher) now order_amount order_id ledger userId
          cm ue inf rf ts).ledger = ledger ++ [r] ∧
        r.voucher_id = voucher.id ∧ r.user_id = userId ∧ r.status = .SUCCESS) ∧
      (cm = true →
        (redeemHandler (some voucher) now order_amount order_id ledger userId
          cm ue inf rf ts).voucher =
          some { voucher with total_redeemed := voucher.total_redeemed + 1 }) ∧
      (cm = false →
        (redeemHandler (some voucher) now order_amount order_id ledger userId
          cm ue inf rf ts).voucher = some voucher)) := by
  constructor
  · intro cm
    simp only [redeemHandler, if_neg hamt, helig]
    rfl
  · intro cm ue inf rf p h
    cases ue with
    | true =>
        simp only [redeemHandler, if_neg hamt, helig] at h
        exact absurd h (by simp)
    | false =>
        cases inf with
        | true =>
            simp only [redeemHandler, if_neg hamt, helig] at h
            exact absurd h (by simp)
        | false =>
            simp only [redeemHandler, if_neg hamt, helig]
            exact ⟨⟨_, rfl, rfl, rfl, rfl⟩,
              fun hcm => by subst hcm; rfl,
              fun hcm => by subst hcm; rfl⟩

/-- Witness for `rollback_restores_state` on a concrete failed-insert run. -/
theorem rollback_restores_state_witness :
    redeemHandler (some vPlain) 2 100 none [] 9 true false true false 5 =
      { result := .insertFailed, voucher := some vPlain, ledger := [],
        ops := [.updateTotalRedeemed vPlain.id (vPlain.total_redeemed + 1)
                  (some vPlain.total_redeemed),
                .insertRedemption
                  { voucher_id := vPlain.id, user_id := 9, order_id := none,
                    order_amount := 100,
                    discount_amount := computeDiscount vPlain 100,
                    final_amount := (100 : Int) - (computeDiscount vPlain 100 : Int),
                    status := .SUCCESS, redeemed_at := 5 },
                .updateTotalRedeemed vPlain.id vPlain.total_redeemed none],
        update_attempts := 1 } :=
  (rollback_restores_state vPlain 2 100 none [] 9 5 (by decide) (by decide)).1 true

/-- Claim C5, counterexample: a CANCELLED redemption record for the (voucher, user)
pair also triggers `alreadyRedeemed` — the duplicate check does not filter by status,
contrary to the claim that only a SUCCESS record causes the error. -/
theorem cancelled_triggers_alreadyRedeemed :
    rCancelled.status = .CANCELLED ∧
    (redeemHandler (some vPlain) 0 100 none [rCancelled] 9 true false false
        false 5).result = .alreadyRedeemed 42 := by decide

/-- Claim C5 as amended: for a request passing the earlier eligibility checks,
`alreadyRedeemed` (carrying the record's `redeemed_at`) is returned exactly when the
duplicate query yields a row, which under `.single()` means the ledger holds exactly
one record for the (voucher, user) pair — of any status, SUCCESS, CANCELLED and
REFUNDED alike; with zero matching records, or with two or more (when `.single()`
errors and `existingRedeem` is null), the check passes and no `alreadyRedeemed` is
returned. -/
theorem alreadyRedeemed_ignores_status (voucher : Voucher) (now : Int)
    (order_amount : Nat) (order_id : Option String) (ledger : List Redemption)
    (userId : Nat) (cm ue inf rf : Bool) (ts : Int)
    (hamt : order_amount ≠ 0)
    (hact : voucher.is_active = true)
    (hns : isNotStarted voucher.start_at now = false)
    (hexp : isExpired voucher.end_at now = false)
    (hcap : voucher.total_redeemed < voucher.max_total_redemptions)
    (hmin : voucher.min_order_amount ≤ order_amount) :
    (∀ r, findRedemption ledger voucher.id userId = some r →
      (redeemHandler (some voucher) now order_amount order_id ledger userId
          cm ue inf rf ts).result = .alreadyRedeemed r.redeemed_at) ∧
    (findRedemption ledger voucher.id userId = none →
      ∀ t, (redeemHandler (some voucher) now order_amount order_id ledger userId
          cm ue inf rf ts).result ≠ .alreadyRedeemed t) := by
  constructor
  · intro r hr
    have helig : checkEligibility (some voucher) now order_amount ledger userId =
        some (.alreadyRedeemed r.redeemed_at) := by
      show voucherEligibility voucher now order_amount ledger userId = _
      exact (voucherEligibility_alreadyRedeemed_iff voucher now order_amount ledger
        userId r.redeemed_at).mpr ⟨hact, hns, hexp, hcap, hmin, r, hr, rfl⟩
    rw [redeemHandler_eligibility_error (some voucher) now order_amount order_id
      ledger userId cm ue inf rf ts _ hamt helig]
  · intro hn t
    have helig : checkEligibility (some voucher) now order_amount ledger userId =
        none := by
      show voucherEligibility voucher now order_amount ledger userId = none
      exact (voucherEligibility_none_iff voucher now order_amount ledger
        userId).mpr ⟨hact, hns, hexp, hcap, hmin, hn⟩
    simp only [redeemHandler, if_neg hamt, helig]
    cases ue <;> cases inf <;> simp

/-- Witness for `alreadyRedeemed_ignores_status` at the `.single()` multi-row case:
with two records for the pair the lookup yields null, so the duplicate check passes
and no `alreadyRedeemed` is produced. -/
theorem alreadyRedeemed_ignores_status_witness :
    findRedemption [rCancelled, rSuccess] vPlain.id 9 = none ∧
    (redeemHandler (some vPlain) 1 100 none [rCancelled, rSuccess] 9
        true false false false 5).result ≠ .alreadyRedeemed 17 :=
  ⟨by decide,
   (alreadyRedeemed_ignores_status vPlain 1 100 none [rCancelled, rSuccess] 9
      true false false false 5 (by decide) (by decide) (by decide) (by decide)
      (by decide) (by decide)).2 (by decide) 17⟩

/-- Claim C1, counterexample: the PUT handler lets an update shrink
`max_total_redemptions` below the stored counter — starting from `vUsed`
(5 of 10 redeemed, invariant holds) the update to `max_total_redemptions = 3` is
accepted and the resulting row violates `redeemed_count ≤ max_redemptions`. -/
theorem update_breaks_capacity_invariant :
    voucherInvariant vUsed ∧
    applyOp (some vUsed) (.update uShrink false) =
      some { vUsed with max_total_redemptions := 3 } ∧
    ¬ voucherInvariant { vUsed with max_total_redemptions := 3 } := by decide

/-- Claim C1 as amended: create, delete and redeem (on every path: storage fault,
silent zero-row conflict, failed insert with or without a successful compensation,
success) preserve `0 ≤ redeemed_count ≤ max_redemptions`; update preserves it only
under the side condition that it does not shrink `max_total_redemptions` below the
stored `total_redeemed` — a condition the handler does not check. -/
theorem capacity_invariant_preserved (row : Option Voucher) (op : CatalogOp)
    (hInv : ∀ v, row = some v → voucherInvariant v)
    (hUpd : opKeepsCapacity row op) :
    ∀ v', applyOp row op = some v' → voucherInvariant v' := by
  intro v' hv'
  cases op with
  | create input dbFails newId =>
      cases row with
      | some v =>
          simp only [applyOp, createHandler] at hv'
          split_ifs at hv' <;>
            · simp only [Option.some.injEq] at hv'
              subst hv'
              exact hInv v rfl
      | none =>
          simp only [applyOp, createHandler] at hv'
          split_ifs at hv'
          simp only [Option.some.injEq] at hv'
          subst hv'
          exact Nat.zero_le _
  | update u dbFails =>
      cases row with
      | none => simp [applyOp, updateHandler] at hv'
      | some existing =>
          simp only [applyOp, updateHandler] at hv'
          split_ifs at hv' with h1 h2 h3 <;>
            simp only [Option.some.injEq] at hv'
          · subst hv'; exact hInv existing rfl
          · subst hv'; exact hInv existing rfl
          · subst hv'; exact hInv existing rfl
          · subst hv'
            have hbound := hUpd existing rfl
            exact hbound
  | delete dbFails =>
      cases row with
      | none => simp [applyOp, deleteHandler] at hv'
      | some existing =>
          simp only [applyOp, deleteHandler] at hv'
          split_ifs at hv' with h1 h2
          · simp only [Option.some.injEq] at hv'
            subst hv'
            exact hInv existing rfl
          · simp only [Option.some.injEq] at hv'
            subst hv'
            exact hInv existing rfl
  | redeem now amt oid ledger uid cm ue inf rf ts =>
      simp only [applyOp] at hv'
      cases row with
      | none =>
          by_cases hamt0 : amt = 0
          · simp [redeemHandler, hamt0] at hv'
          · simp [redeemHandler, hamt0, checkEligibility] at hv'
      | some voucher =>
          by_cases hamt0 : amt = 0
          · simp only [redeemHandler, if_pos hamt0] at hv'
            exact hInv v' hv'
          · cases helig : checkEligibility (some voucher) now amt ledger uid with
            | some e =>
                rw [redeemHandler_eligibility_error (some voucher) now amt oid
                  ledger uid cm ue inf rf ts e hamt0 helig] at hv'
                exact hInv v' hv'
            | none =>
                have hcap : voucher.total_redeemed < voucher.max_total_redemptions :=
                  ((voucherEligibility_none_iff voucher now amt ledger uid).mp
                    helig).2.2.2.1
                have hinc : voucherInvariant
                    { voucher with total_redeemed := voucher.total_redeemed + 1 } :=
                  Nat.succ_le_of_lt hcap
                simp only [redeemHandler, if_neg hamt0, helig] at hv'
                cases ue with
                | true =>
                    simp at hv'
                    subst hv'
                    exact hInv voucher rfl
                | false =>
                    cases inf with
                    | true =>
                        cases rf with
                        | true =>
                            cases cm with
                            | true =>
                                simp at hv'
                                subst hv'
                                exact hinc
                            | false =>
                                simp at hv'
                                subst hv'
                                exact hInv voucher rfl
                        | false =>
                            simp at hv'
                            subst hv'
                            exact hInv voucher rfl
                    | false =>
                        cases cm with
                        | true =>
                            simp at hv'
                            subst hv'
                            exact hinc
                        | false =>
                            simp at hv'
                            subst hv'
                            exact hInv voucher rfl

/-- Witness for `capacity_invariant_preserved`: an update that raises the cap on the
partially-redeemed `vUsed` keeps the invariant. -/
theorem capacity_invariant_preserved_witness :
    voucherInvariant { vUsed with max_total_redemptions := 7 } := by
  refine capacity_invariant_preserved (some vUsed) (.update uGrow false) ?_ ?_
    { vUsed with max_total_redemptions := 7 } (by decide)
  · intro v hv
    injection hv with h
    subst h
    decide
  · intro v hv
    injection hv with h
    subst h
    decide

/-- Claim C8 (the code does not enforce it): the PUT handler accepts a request that
shrinks `max_total_redemptions` to 3 while `total_redeemed` is 5 — it answers `ok`
and stores the shrunk row instead of rejecting the request as a validation error and
leaving the voucher unchanged. -/
theorem update_shrink_accepted :
    (updateHandler (some vUsed) uShrink false).1 =
      .ok { vUsed with max_total_redemptions := 3 } ∧
    (updateHandler (some vUsed) uShrink false).2 =
      some { vUsed with max_total_redemptions := 3 } ∧
    vUsed.total_redeemed = 5 ∧
    ¬ voucherInvariant { vUsed with max_total_redemptions := 3 } := by decide

end VoucherService
